import Mathlib

/-!
Shallow embedding of the NYC-schools data pipeline (`Schools.py`) and proofs
about it.  The pipeline loads several tabular datasets, normalizes the school
identifier (DBN), derives numeric features (combined SAT score, geographic
coordinates), condenses multi-row-per-school tables, merges everything into
one combined table and imputes missing values.

Conventions of the embedding:
* a missing value (pandas `NaN`) is `Option.none` (or the `Cell.cNaN`
  constructor in the dataframe model);
* numbers are modelled as `ℚ` (the script only adds, divides and compares
  finitely many decimal literals, so rationals are exact);
* Python exceptions are `Except.error`.
-/

set_option autoImplicit false

deriving instance DecidableEq for Except

namespace NYC

/-! ### Python string helpers -/

/-- Characters treated as whitespace by Python's `str.strip()`. -/
def isPySpace (c : Char) : Bool :=
  c == ' ' || c == '\t' || c == '\n' || c == '\r' || c == '\x0b' || c == '\x0c'

/-- Python `str.strip()` on a list of characters: drop whitespace from both
ends. -/
def pyStrip (cs : List Char) : List Char :=
  ((cs.dropWhile isPySpace).reverse.dropWhile isPySpace).reverse

/-! ### `pd.to_numeric(…, errors="coerce")`

`Schools.py` uses `pd.to_numeric(col, errors="coerce")` (lines 140, 157-158,
194) to coerce string-typed score columns to numbers, mapping every
unparseable value to `NaN` (`none` here) instead of raising.  The grammar
accepted by the pandas parser is (after stripping surrounding whitespace):
an optional sign, a decimal mantissa `digits[.digits]` or `.digits`, and an
optional exponent `e`/`E` followed by an optionally signed digit string. -/

/-- Numeric value of a digit string (all characters must be digits). -/
def digitsToNat (cs : List Char) : Nat :=
  cs.foldl (fun a c => 10 * a + (c.toNat - 48)) 0

/-- Parse a non-empty all-digit string. -/
def parseDigits (cs : List Char) : Option Nat :=
  if cs.isEmpty then none
  else if cs.all Char.isDigit then some (digitsToNat cs) else none

/-- Parse the (optionally signed) exponent part after `e`/`E`. -/
def parseExp (cs : List Char) : Option Int :=
  match cs with
  | '+' :: ds => (parseDigits ds).map (fun n => (n : Int))
  | '-' :: ds => (parseDigits ds).map (fun n => -(n : Int))
  | ds => (parseDigits ds).map (fun n => (n : Int))

/-- Parse an unsigned decimal mantissa `digits[.digits]` / `.digits` /
`digits.` into `(combined digit value, number of fractional digits)`; at
least one digit must be present. -/
def parseMantParts (cs : List Char) : Option (Nat × Nat) :=
  let ip := cs.takeWhile Char.isDigit
  let rest := cs.dropWhile Char.isDigit
  match rest with
  | [] => if ip.isEmpty then none else some (digitsToNat ip, 0)
  | '.' :: fp =>
    if fp.all Char.isDigit && !(ip.isEmpty && fp.isEmpty) then
      some (digitsToNat ip * 10 ^ fp.length + digitsToNat fp, fp.length)
    else none
  | _ => none

/-- Parse an unsigned numeral with optional exponent into
`(digit value, fractional length, exponent)`. -/
def parseUnsignedParts (cs : List Char) : Option (Nat × Nat × Int) :=
  let mant := cs.takeWhile (fun c => c != 'e' && c != 'E')
  let rest := cs.dropWhile (fun c => c != 'e' && c != 'E')
  match rest with
  | [] => (parseMantParts mant).map (fun p => (p.1, p.2, (0 : Int)))
  | _ :: expPart =>
    match parseMantParts mant, parseExp expPart with
    | some p, some e => some (p.1, p.2, e)
    | _, _ => none

/-- Assemble the parsed parts into the exact rational value
`±(num · 10^e) / 10^fracLen`.  Built with a single `mkRat` over `Nat`/`Int`
arithmetic so that it is kernel-reducible. -/
def assembleQ (neg : Bool) (num fracLen : Nat) (e : Int) : ℚ :=
  let n : Int := Int.ofNat (num * 10 ^ e.toNat)
  mkRat (if neg then -n else n) (10 ^ fracLen * 10 ^ (-e).toNat)

/-- `pd.to_numeric(s, errors="coerce")` on a single string value: the numeric
value when `s` parses as a number, `none` (NaN) otherwise.  Total — it never
raises. -/
def to_numeric (s : String) : Option ℚ :=
  match pyStrip s.data with
  | '+' :: t => (parseUnsignedParts t).map (fun p => assembleQ false p.1 p.2.1 p.2.2)
  | '-' :: t => (parseUnsignedParts t).map (fun p => assembleQ true p.1 p.2.1 p.2.2)
  | cs => (parseUnsignedParts cs).map (fun p => assembleQ false p.1 p.2.1 p.2.2)

/-! ### DBN construction (`pad_csd`, lines 115-124) -/

/-- `pad_csd` (Schools.py lines 115-120): `str(num)` if it has more than one
character, otherwise `"0" + str(num)`.  The CSD column holds non-negative
integers, so the argument is a `Nat` and `str` is `Nat.repr`. -/
def pad_csd (num : Nat) : String :=
  let string_representation := Nat.repr num
  if string_representation.length > 1 then string_representation
  else "0" ++ string_representation

/-- One raw row of the class-size table, restricted to the two fields used to
build the DBN (lines 123-124): the `CSD` district code and the fixed-width
`SCHOOL CODE`. -/
structure CSRow where
  csd : Nat
  schoolCode : String

/-- The `padded_csd` column (line 123): `data["class_size"]["CSD"].apply(pad_csd)`. -/
def padded_csd_col (rows : List CSRow) : List String :=
  rows.map (fun r => pad_csd r.csd)

/-- The `SCHOOL CODE` column. -/
def school_code_col (rows : List CSRow) : List String :=
  rows.map (fun r => r.schoolCode)

/-- The constructed `DBN` column (line 124): element-wise string addition of
the `padded_csd` and `SCHOOL CODE` columns. -/
def dbn_col (rows : List CSRow) : List String :=
  List.zipWith (· ++ ·) (padded_csd_col rows) (school_code_col rows)

/-! ### Combined SAT score (lines 138-142) -/

/-- Pandas addition of two possibly-missing numbers: `NaN` propagates. -/
def nanAdd (a b : Option ℚ) : Option ℚ :=
  match a, b with
  | some x, some y => some (x + y)
  | _, _ => none

/-- The derived `sat_score` of one SAT-results row (line 142): the three
section-score strings are coerced with `pd.to_numeric(…, errors="coerce")`
(line 140) and added in source order (Math + Critical Reading + Writing). -/
def sat_score (ms rs ws : String) : Option ℚ :=
  nanAdd (nanAdd (to_numeric ms) (to_numeric rs)) (to_numeric ws)

/-! ### School district derivation (lines 225-228) -/

/-- `get_first_two_chars` (lines 225-226): Python slice `dbn[0:2]`, i.e. the
first `min 2 (length dbn)` characters; slicing never raises. -/
def get_first_two_chars (dbn : String) : String :=
  String.mk (dbn.data.take 2)

/-! ### Coordinate extraction (`find_lat` / `find_lon`, lines 144-152)

`re.findall("\\(.+, .+\\)", loc)` searches for the leftmost match of the
pattern `\(.+, .+\)` and Python's backtracking makes both `.+` greedy
(`.` does not match a newline).  Concretely, for the leftmost `(` at which a
match is possible the matched substring runs to the *last* `)` on that line,
with the literal `", "` of the pattern placed at the last position that
still leaves at least one character before the chosen `)`.

The model below mirrors this: `reFindParen` scans for the first `(` at which
`tryMatch` succeeds; `tryMatch` restricts to the current line
(`takeWhile (· ≠ newline)`), splits at the last `)` (`splitLastClose`), and
inside the part before it finds the last `", "` that is followed by at least
one character (`splitLastCS`); the `.+` before the comma forces the part
before `", "` to be non-empty.

`find_lat` then takes `coords[0].split(",")[0].replace("(", "")` — the
matched text up to its first comma, with every `(` removed — and `find_lon`
takes `coords[0].split(",")[1].replace(")", "").strip()`.  `coords[0]` on an
empty match list raises `IndexError`, modelled as `Except.error ()`. -/

/-- Split a list at the LAST occurrence of `')'`: returns
`some (before, after)` with `l = before ++ ')' :: after` and `')' ∉ after`. -/
def splitLastClose : List Char → Option (List Char × List Char)
  | [] => none
  | c :: rest =>
    match splitLastClose rest with
    | some (h, t) => some (c :: h, t)
    | none => if c = ')' then some ([], rest) else none

/-- Split a list at the last occurrence of `", "` that is followed by at
least one character: returns `some (before, after)` with
`l = before ++ ',' :: ' ' :: after` and `after ≠ []`. -/
def splitLastCS : List Char → Option (List Char × List Char)
  | [] => none
  | c :: rest =>
    match splitLastCS rest with
    | some (u, w) => some (c :: u, w)
    | none =>
      if c = ',' then
        match rest with
        | ' ' :: w => if w.isEmpty then none else some ([], w)
        | _ => none
      else none

/-- Try to complete a greedy match of `\(.+, .+\)` whose opening `(`
immediately precedes `rest`; returns the full matched substring (with the
parentheses) on success. -/
def tryMatch (rest : List Char) : Option (List Char) :=
  let seg := rest.takeWhile (fun c => c != '\n')
  match splitLastClose seg with
  | none => none
  | some (h, _) =>
    match splitLastCS h with
    | none => none
    | some (u, w) =>
      if u.isEmpty then none
      else some ('(' :: (u ++ ',' :: ' ' :: (w ++ [')'])))

/-- `re.findall("\\(.+, .+\\)", loc)[0]`: the first (leftmost, greedy) match
of the coordinate pattern, or `none` when the pattern does not occur. -/
def reFindParen : List Char → Option (List Char)
  | [] => none
  | c :: rest =>
    if c = '(' then
      match tryMatch rest with
      | some m => some m
      | none => reFindParen rest
    else reFindParen rest

/-- `find_lat` (lines 144-147): `coords[0].split(",")[0].replace("(", "")`.
When `findall` returns no match, `coords[0]` raises `IndexError`
(`Except.error ()`). -/
def find_lat (loc : String) : Except Unit String :=
  match reFindParen loc.data with
  | none => Except.error ()
  | some m => Except.ok (String.mk ((m.takeWhile (fun c => c != ',')).filter (fun c => c != '(')))

/-- Python `split(",")[1]`: the characters strictly between the first comma
and the second comma (or the end). -/
def splitPart1 (m : List Char) : List Char :=
  ((m.dropWhile (fun c => c != ',')).drop 1).takeWhile (fun c => c != ',')

/-- `find_lon` (lines 149-152): `coords[0].split(",")[1].replace(")", "").strip()`. -/
def find_lon (loc : String) : Except Unit String :=
  match reFindParen loc.data with
  | none => Except.error ()
  | some m => Except.ok (String.mk (pyStrip ((splitPart1 m).filter (fun c => c != ')'))))

/-- The `lat` column after the numeric coercion of line 157:
`pd.to_numeric(find_lat(loc), errors="coerce")` (only defined where
`find_lat` did not raise). -/
def find_lat_num (loc : String) : Option ℚ :=
  match find_lat loc with
  | Except.error _ => none
  | Except.ok s => to_numeric s

/-- The `lon` column after the numeric coercion of line 158. -/
def find_lon_num (loc : String) : Option ℚ :=
  match find_lon loc with
  | Except.error _ => none
  | Except.ok s => to_numeric s

/-! ### The merge pipeline (lines 204-212), key-level model

A table is modelled as a list of `(DBN, payload)` pairs — for the join
semantics of the final merge only the key column matters, so the payload
type is left abstract for each source table.  `pd.merge(l, r, on="DBN")`
pairs every left row with every right row carrying the same key;
`how="left"` additionally keeps unmatched left rows, filling the right
payload with missing values (`none`); `how="inner"` drops them. -/

/-- The DBN (key) column of a keyed table. -/
def keysOf {α : Type} (t : List (String × α)) : List String :=
  t.map Prod.fst

/-- `l.merge(r, on="DBN", how="left")`. -/
def leftMerge {α β : Type} (l : List (String × α)) (r : List (String × β)) :
    List (String × α × Option β) :=
  l.flatMap (fun p =>
    let ms := r.filter (fun q => q.1 == p.1)
    if ms.isEmpty then [(p.1, p.2, none)]
    else ms.map (fun q => (p.1, p.2, some q.2)))

/-- `l.merge(r, on="DBN", how="inner")`. -/
def innerMerge {α β : Type} (l : List (String × α)) (r : List (String × β)) :
    List (String × α × β) :=
  l.flatMap (fun p => (r.filter (fun q => q.1 == p.1)).map (fun q => (p.1, p.2, q.2)))

/-- The `combined` table of lines 204-212: start from `sat_results`,
left-merge `ap_2010` and `graduation`, then inner-merge `class_size`,
`demographics`, `survey` and `hs_directory` (the four-iteration `for` loop
is unrolled). -/
def combined {A B C D E F G : Type}
    (sat : List (String × A)) (ap : List (String × B)) (grad : List (String × C))
    (cs : List (String × D)) (dem : List (String × E)) (sur : List (String × F))
    (hsd : List (String × G)) :
    List (String × ((((((A × Option B) × Option C) × D) × E) × F) × G)) :=
  innerMerge (innerMerge (innerMerge (innerMerge
    (leftMerge (leftMerge sat ap) grad) cs) dem) sur) hsd

/-! ### Dataframe model (condensation and imputation, lines 172-183, 214-215)

For the claims about condensation and imputation the column structure of a
pandas `DataFrame` matters (column selection by name raises `KeyError` when
the column is absent, `groupby(…).agg(np.mean)` silently drops non-numeric
columns).  A dataframe is a list of column names plus rows of cells; a cell
is a number, a string, or `NaN`. -/

/-- One cell of a dataframe. -/
inductive Cell where
  | cNum (q : ℚ)
  | cStr (s : String)
  | cNaN
deriving DecidableEq

/-- The cell of row `r` in column position `j`; a missing position reads as
`NaN` (pandas aligns ragged data with `NaN`). -/
def cellAt (j : Nat) (r : List Cell) : Cell :=
  (r.get? j).getD Cell.cNaN

/-- Pandas `==` on cells: comparisons with `NaN` are `False`. -/
def cellEqB (x y : Cell) : Bool :=
  match x, y with
  | Cell.cNaN, _ => false
  | _, Cell.cNaN => false
  | x, y => x == y

/-- A dataframe: named columns and rows of cells (cells are positional,
aligned with `cols`). -/
structure DF where
  cols : List String
  rows : List (List Cell)
deriving DecidableEq

/-- Index of the first column with the given name, if any. -/
def colIndex : List String → String → Option Nat
  | [], _ => none
  | x :: xs, c => if x = c then some 0 else (colIndex xs c).map (· + 1)

/-- Name of column `j`. -/
def colNameAt (df : DF) (j : Nat) : String :=
  (df.cols.get? j).getD ""

/-- `df[df[c] == v]`: boolean-mask row filter.  Selecting an absent column
raises `KeyError` (`Except.error ()`). -/
def filterEqCell (c : String) (v : Cell) (df : DF) : Except Unit DF :=
  match colIndex df.cols c with
  | none => Except.error ()
  | some i => Except.ok ⟨df.cols, df.rows.filter (fun r => cellEqB (cellAt i r) v)⟩

/-- Kernel-reducible rational addition (`mkRat` form; equal to `+`). -/
def qAddR (a b : ℚ) : ℚ :=
  mkRat (a.num * (b.den : Int) + b.num * (a.den : Int)) (a.den * b.den)

/-- Kernel-reducible division of a rational by a natural number. -/
def qDivNat (a : ℚ) (n : Nat) : ℚ :=
  mkRat a.num (a.den * n)

/-- Sum of a list of rationals (kernel-reducible form). -/
def sumQ (l : List ℚ) : ℚ :=
  l.foldr qAddR 0

/-- Mean aggregation of a list of cells, as pandas computes it for a numeric
column: the arithmetic mean of the numeric values, skipping `NaN`; `NaN`
when there is no numeric value. -/
def meanCells (cells : List Cell) : Cell :=
  let qs := cells.filterMap (fun c => match c with | Cell.cNum q => some q | _ => none)
  if qs.isEmpty then Cell.cNaN else Cell.cNum (qDivNat (sumQ qs) qs.length)

/-- Whether column `j` has numeric dtype: every cell is a number or `NaN`
(a column containing a string is `object` dtype). -/
def colIsNumeric (df : DF) (j : Nat) : Bool :=
  df.rows.all (fun r => match cellAt j r with | Cell.cStr _ => false | _ => true)

/-- `df.groupby(key).agg(np.mean)` followed by `reset_index()`
(lines 176-177): rows with a `NaN` key are dropped, rows are grouped by the
key cell, every non-key numeric column is reduced to its mean, and
non-numeric columns are silently dropped; the key becomes the first column
again after `reset_index`.  (Pandas additionally sorts the group keys; the
properties proved below do not depend on the order of the result rows, so
the model keeps first-occurrence order of `dedup`.)  Grouping on an absent
column raises `KeyError`. -/
def groupbyMean (key : String) (df : DF) : Except Unit DF :=
  match colIndex df.cols key with
  | none => Except.error ()
  | some i =>
    let keep := (List.range df.cols.length).filter
      (fun j => !(colNameAt df j == key) && colIsNumeric df j)
    let valid := df.rows.filter (fun r => !(cellAt i r == Cell.cNaN))
    let ks := (valid.map (fun r => cellAt i r)).dedup
    Except.ok ⟨key :: keep.map (colNameAt df),
      ks.map (fun k =>
        k :: keep.map (fun j => meanCells ((valid.filter (fun r => cellAt i r == k)).map (cellAt j))))⟩

/-- Condensation of the class-size table (lines 172-177): filter
`GRADE == "09-12"`, filter `PROGRAM TYPE == "GEN ED"`, then group by DBN
with mean aggregation. -/
def condense_class_size (df : DF) : Except Unit DF :=
  (filterEqCell "GRADE " (Cell.cStr "09-12") df).bind (fun d1 =>
    (filterEqCell "PROGRAM TYPE" (Cell.cStr "GEN ED") d1).bind (fun d2 =>
      groupbyMean "DBN" d2))

/-- Condensation of the demographics table (line 180): keep the single
school year `20112012` (an integer column). -/
def condense_demographics (df : DF) : Except Unit DF :=
  filterEqCell "schoolyear" (Cell.cNum 20112012) df

/-- Condensation of the graduation table (lines 182-183): keep the `"2006"`
cohort (a string column) and the `"Total Cohort"` subgroup. -/
def condense_graduation (df : DF) : Except Unit DF :=
  (filterEqCell "Cohort" (Cell.cStr "2006") df).bind (fun d1 =>
    filterEqCell "Demographic" (Cell.cStr "Total Cohort") d1)

/-! ### Imputation (lines 214-215) -/

/-- `combined.mean()` for one column: the mean of the numeric values of a
numeric column (`none` when the column has no numeric value — pandas
returns `NaN` there, and filling with `NaN` changes nothing). -/
def meanOfCol (df : DF) (j : Nat) : Option ℚ :=
  let qs := df.rows.filterMap (fun r => match cellAt j r with | Cell.cNum q => some q | _ => none)
  if qs.isEmpty then none else some (qDivNat (sumQ qs) qs.length)

/-- `combined.fillna(combined.mean())` (line 214): in every numeric column,
replace `NaN` by the column mean computed over the whole (already merged)
table; non-numeric columns have no mean and are unchanged. -/
def fillnaMean (df : DF) : DF :=
  ⟨df.cols, df.rows.map (fun r =>
    (List.range df.cols.length).map (fun j =>
      if colIsNumeric df j then
        match cellAt j r with
        | Cell.cNaN => (match meanOfCol df j with
          | some m => Cell.cNum m
          | none => Cell.cNaN)
        | c => c
      else cellAt j r))⟩

/-- `combined.fillna(0)` (line 215): every remaining `NaN` becomes `0`
(also in non-numeric columns); non-missing cells are untouched. -/
def fillnaZero (df : DF) : DF :=
  ⟨df.cols, df.rows.map (fun r => r.map (fun c =>
    match c with
    | Cell.cNaN => Cell.cNum 0
    | c => c))⟩

/-- The two imputation steps of lines 214-215 in source order. -/
def imputeDF (df : DF) : DF :=
  fillnaZero (fillnaMean df)

/-- The cell of the `i`-th row, `j`-th column of a dataframe. -/
def cellOf (df : DF) (i j : Nat) : Cell :=
  cellAt j ((df.rows.get? i).getD [])

/-! ### Concrete test tables used by witnesses and counterexamples -/

/-- A small class-size table: three `09-12`/`GEN ED` rows over two DBNs plus
one other-grade row. -/
def csTestDF : DF :=
  ⟨["DBN", "GRADE ", "PROGRAM TYPE", "AVERAGE CLASS SIZE"],
   [[Cell.cStr "01M292", Cell.cStr "09-12", Cell.cStr "GEN ED", Cell.cNum 30],
    [Cell.cStr "01M292", Cell.cStr "09-12", Cell.cStr "GEN ED", Cell.cNum 20],
    [Cell.cStr "01M292", Cell.cStr "0K-09", Cell.cStr "GEN ED", Cell.cNum 99],
    [Cell.cStr "02M294", Cell.cStr "09-12", Cell.cStr "GEN ED", Cell.cNum 18]]⟩

/-- The condensation of `csTestDF`: the non-numeric grade and program
columns are dropped and class sizes are averaged per DBN. -/
def csOnceDF : DF :=
  ⟨["DBN", "AVERAGE CLASS SIZE"],
   [[Cell.cStr "01M292", Cell.cNum 25],
    [Cell.cStr "02M294", Cell.cNum 18]]⟩

/-- A demographics table with two identical rows for the kept school year. -/
def demoTestDF : DF :=
  ⟨["DBN", "schoolyear"],
   [[Cell.cStr "01M292", Cell.cNum 20112012],
    [Cell.cStr "01M292", Cell.cNum 20112012]]⟩

/-- `demoTestDF` grouped by DBN. -/
def demoGroupedDF : DF :=
  ⟨["DBN", "schoolyear"], [[Cell.cStr "01M292", Cell.cNum 20112012]]⟩

/-- A demographics table with rows from two school years. -/
def demoMixedDF : DF :=
  ⟨["DBN", "schoolyear"],
   [[Cell.cStr "01M292", Cell.cNum 20112012],
    [Cell.cStr "01M292", Cell.cNum 20052006]]⟩

/-- `demoMixedDF` filtered to the 2011-2012 school year. -/
def demoMixedOutDF : DF :=
  ⟨["DBN", "schoolyear"], [[Cell.cStr "01M292", Cell.cNum 20112012]]⟩

/-- A single numeric column `[10, 20, NaN]`. -/
def impTestDF : DF :=
  ⟨["X"], [[Cell.cNum 10], [Cell.cNum 20], [Cell.cNaN]]⟩

/-- A single non-numeric column `["abc", NaN]`. -/
def objTestDF : DF :=
  ⟨["Name"], [[Cell.cStr "abc"], [Cell.cNaN]]⟩

end NYC

namespace NYC

/-! ## Helper lemmas -/

/-- `Nat.toDigitsCore` never shrinks its accumulator. -/
lemma toDigitsCore_length_le (b : Nat) :
    ∀ (fuel n : Nat) (ds : List Char), ds.length ≤ (Nat.toDigitsCore b fuel n ds).length := by
  intro fuel
  induction fuel with
  | zero => intro n ds; simp [Nat.toDigitsCore]
  | succ f ih =>
    intro n ds
    simp only [Nat.toDigitsCore]
    split
    · simp
    · exact Nat.le_trans (Nat.le_succ _) (ih _ (Nat.digitChar (n % b) :: ds))

/-- The decimal representation of a natural number is never empty. -/
lemma repr_length_pos (n : Nat) : 0 < (Nat.repr n).length := by
  show 0 < (Nat.toDigits 10 n).length
  simp only [Nat.toDigits, Nat.toDigitsCore]
  split
  · simp
  · exact Nat.lt_of_lt_of_le (by simp) (toDigitsCore_length_le 10 _ _ [Nat.digitChar (n % 10)])

/-- `nanAdd` is `none` when its right argument is. -/
lemma nanAdd_none_right (a : Option ℚ) : nanAdd a none = none := by
  cases a <;> rfl

/-- `nanAdd` is `none` when its left argument is. -/
lemma nanAdd_none_left (a : Option ℚ) : nanAdd none a = none := by
  cases a <;> rfl

/-! ## Claim C6: the padding function -/

/-- C6.  `pad_csd` is a pure total function: when the decimal form of the
district code has length at most 1, the result is that form with a leading
zero and has length exactly 2; otherwise the result is the decimal form
unchanged. -/
theorem C6_pad_csd_total (n : Nat) :
    ((Nat.repr n).length ≤ 1 → pad_csd n = "0" ++ Nat.repr n ∧ (pad_csd n).length = 2) ∧
    (1 < (Nat.repr n).length → pad_csd n = Nat.repr n) := by
  constructor
  · intro h
    have h1 : ¬ ((Nat.repr n).length > 1) := by omega
    refine ⟨by simp [pad_csd, h1], ?_⟩
    have hpos := repr_length_pos n
    have hlen : (Nat.repr n).length = 1 := by omega
    simp [pad_csd, h1, String.length_append, hlen]
    decide
  · intro h
    simp [pad_csd, h]

/-- C6 witness: the padding examples from the spec, obtained from
`C6_pad_csd_total` at the concrete district codes 5, 10 and 1. -/
theorem C6_pad_csd_total_witness : pad_csd 5 = "05" ∧ pad_csd 10 = "10" ∧ pad_csd 1 = "01" := by
  refine ⟨?_, ?_, ?_⟩
  · have h := ((C6_pad_csd_total 5).1 (by decide)).1
    rw [h]; decide
  · have h := (C6_pad_csd_total 10).2 (by decide)
    rw [h]; decide
  · have h := ((C6_pad_csd_total 1).1 (by decide)).1
    rw [h]; decide

/-! ## Claim C7: DBN construction for the class-size table -/

/-- C7.  Every entry of the constructed `DBN` column is the padded district
code concatenated with the school code of its row; in particular district
code 5 with school code `"M692"` gives `"05M692"`. -/
theorem C7_dbn_construction (rows : List CSRow) :
    dbn_col rows = rows.map (fun r => pad_csd r.csd ++ r.schoolCode) ∧
    dbn_col [⟨5, "M692"⟩] = ["05M692"] := by
  constructor
  · induction rows with
    | nil => rfl
    | cons r rs ih =>
      simp only [dbn_col, padded_csd_col, school_code_col, List.map_cons,
        List.zipWith_cons_cons] at ih ⊢
      exact congrArg _ ih
  · decide

/-! ## Claim C3: combined SAT score -/

/-- C3.  The derived combined SAT score of a row is the sum of the three
coerced section scores when all three coerce to numbers, and the missing
marker as soon as at least one section is missing — never a partial sum. -/
theorem C3_sat_score_sum (ms rs ws : String) :
    (∀ x y z : ℚ, to_numeric ms = some x → to_numeric rs = some y → to_numeric ws = some z →
      sat_score ms rs ws = some (x + y + z)) ∧
    ((to_numeric ms = none ∨ to_numeric rs = none ∨ to_numeric ws = none) →
      sat_score ms rs ws = none) := by
  constructor
  · intro x y z hx hy hz
    simp [sat_score, hx, hy, hz, nanAdd]
  · intro h
    rcases h with h | h | h
    · simp [sat_score, h, nanAdd_none_left]
    · simp [sat_score, h, nanAdd_none_right, nanAdd_none_left]
    · simp [sat_score, h, nanAdd_none_right]

/-- C3 witness: sections 400, 390, 410 give 1200; a missing (unparseable)
section makes the combined score missing. -/
theorem C3_sat_score_sum_witness :
    sat_score "400" "390" "410" = some 1200 ∧ sat_score "s" "390" "410" = none := by
  constructor
  · have h := (C3_sat_score_sum "400" "390" "410").1 400 390 410
      (by decide) (by decide) (by decide)
    rw [h]; norm_num
  · exact (C3_sat_score_sum "s" "390" "410").2 (Or.inl (by decide))

/-! ## Claim C10: school-district derivation -/

/-- C10.  `get_first_two_chars` is total on strings: the result is the first
`min 2 (length)` characters (no exception for short strings), and equals the
first two characters whenever the DBN has length at least 2. -/
theorem C10_school_dist_total (s : String) :
    (get_first_two_chars s).length = min 2 s.length ∧
    (∀ a b rest, s.data = a :: b :: rest → get_first_two_chars s = String.mk [a, b]) := by
  constructor
  · show (s.data.take 2).length = min 2 s.data.length
    exact List.length_take 2 s.data
  · intro a b rest h
    simp [get_first_two_chars, h]

/-- C10 witness: the first two characters of a real DBN. -/
theorem C10_school_dist_total_witness : get_first_two_chars "01M292" = "01" := by
  have h := (C10_school_dist_total "01M292").2 '0' '1' "M292".data (by decide)
  exact h.trans (by decide)

/-! ## Claim C1: membership in the combined table -/

/-- A key is in an inner merge exactly when it is in both operands. -/
lemma keysOf_innerMerge {α β : Type} (l : List (String × α)) (r : List (String × β))
    (k : String) : k ∈ keysOf (innerMerge l r) ↔ k ∈ keysOf l ∧ k ∈ keysOf r := by
  simp only [keysOf, innerMerge, List.mem_map, List.mem_flatMap, List.mem_filter, beq_iff_eq]
  constructor
  · rintro ⟨x, ⟨p, hp, ⟨q, ⟨hqr, hq1⟩, rfl⟩⟩, hxk⟩
    exact ⟨⟨p, hp, hxk⟩, ⟨q, hqr, hq1.trans hxk⟩⟩
  · rintro ⟨⟨p, hp, hpk⟩, ⟨q, hq, hqk⟩⟩
    exact ⟨(p.1, p.2, q.2), ⟨p, hp, ⟨q, ⟨hq, hqk.trans hpk.symm⟩, rfl⟩⟩, hpk⟩

/-- A key is in a left merge exactly when it is in the left operand: anchor
rows are never dropped, whether or not the right table matches. -/
lemma keysOf_leftMerge {α β : Type} (l : List (String × α)) (r : List (String × β))
    (k : String) : k ∈ keysOf (leftMerge l r) ↔ k ∈ keysOf l := by
  simp only [keysOf, leftMerge, List.mem_map, List.mem_flatMap]
  constructor
  · rintro ⟨x, ⟨p, hp, hx⟩, hxk⟩
    split at hx
    · rcases List.mem_singleton.mp hx with rfl
      exact ⟨p, hp, hxk⟩
    · rcases List.mem_map.mp hx with ⟨q, _, rfl⟩
      exact ⟨p, hp, hxk⟩
  · rintro ⟨p, hp, hpk⟩
    cases he : (r.filter (fun q => q.1 == p.1)).isEmpty with
    | true =>
      exact ⟨(p.1, p.2, none), ⟨p, hp, by rw [if_pos he]; simp⟩, hpk⟩
    | false =>
      have hne : r.filter (fun q => q.1 == p.1) ≠ [] := List.isEmpty_eq_false.mp he
      obtain ⟨q, hq⟩ := List.exists_mem_of_ne_nil _ hne
      refine ⟨(p.1, p.2, some q.2), ⟨p, hp, ?_⟩, hpk⟩
      rw [if_neg (by simp [he])]
      exact List.mem_map_of_mem _ hq

/-- C1.  A DBN appears in the final combined table iff it appears in the SAT
Results anchor and in all four inner-joined tables (Class Size,
Demographics, Survey, HS Directory); membership in AP Results or Graduation
(the two left-joined tables) is irrelevant. -/
theorem C1_combined_membership {A B C D E F G : Type}
    (sat : List (String × A)) (ap : List (String × B)) (grad : List (String × C))
    (cs : List (String × D)) (dem : List (String × E)) (sur : List (String × F))
    (hsd : List (String × G)) (dbn : String) :
    dbn ∈ keysOf (combined sat ap grad cs dem sur hsd) ↔
      dbn ∈ keysOf sat ∧ dbn ∈ keysOf cs ∧ dbn ∈ keysOf dem ∧
        dbn ∈ keysOf sur ∧ dbn ∈ keysOf hsd := by
  simp only [combined, keysOf_innerMerge, keysOf_leftMerge]
  tauto

/-! ## Claims C4 / C5: coordinate extraction -/

/-- `takeWhile` walks through a block of satisfying elements. -/
lemma takeWhile_append_all {α : Type} (p : α → Bool) (xs ys : List α)
    (h : ∀ x ∈ xs, p x = true) :
    (xs ++ ys).takeWhile p = xs ++ ys.takeWhile p := by
  induction xs with
  | nil => rfl
  | cons x xs ih =>
    have hx := h x (by simp)
    simp only [List.cons_append, List.takeWhile_cons, hx, if_true]
    rw [ih (fun y hy => h y (by simp [hy]))]

/-- `takeWhile` keeps a list all of whose elements satisfy the predicate. -/
lemma takeWhile_eq_self {α : Type} (p : α → Bool) (l : List α)
    (h : ∀ x ∈ l, p x = true) : l.takeWhile p = l := by
  have := takeWhile_append_all p l [] h
  simpa using this

/-- `dropWhile` skips a block of satisfying elements. -/
lemma dropWhile_append_all {α : Type} (p : α → Bool) (xs ys : List α)
    (h : ∀ x ∈ xs, p x = true) :
    (xs ++ ys).dropWhile p = ys.dropWhile p := by
  induction xs with
  | nil => rfl
  | cons x xs ih =>
    have hx := h x (by simp)
    simp only [List.cons_append, List.dropWhile_cons, hx, if_true]
    exact ih (fun y hy => h y (by simp [hy]))

/-- `filter` keeps a list all of whose elements satisfy the predicate. -/
lemma filter_eq_self_of_all {α : Type} (p : α → Bool) (l : List α)
    (h : ∀ x ∈ l, p x = true) : l.filter p = l :=
  List.filter_eq_self.mpr h

/-- A list without `')'` has no last-`')'` split. -/
lemma splitLastClose_of_no_close (l : List Char) (h : ∀ c ∈ l, c ≠ ')') :
    splitLastClose l = none := by
  induction l with
  | nil => rfl
  | cons c rest ih =>
    have hc : c ≠ ')' := h c (by simp)
    simp [splitLastClose, ih (fun x hx => h x (by simp [hx])), hc]

/-- Splitting at the last `')'` of `xs ++ ')' :: ys` when `ys` has none. -/
lemma splitLastClose_append (xs ys : List Char) (h : ∀ c ∈ ys, c ≠ ')') :
    splitLastClose (xs ++ ')' :: ys) = some (xs, ys) := by
  induction xs with
  | nil => simp [splitLastClose, splitLastClose_of_no_close ys h]
  | cons x xs ih => simp [splitLastClose, ih]

/-- A list without `','` has no last-`", "` split. -/
lemma splitLastCS_of_no_comma (l : List Char) (h : ∀ c ∈ l, c ≠ ',') :
    splitLastCS l = none := by
  induction l with
  | nil => rfl
  | cons c rest ih =>
    have hc : c ≠ ',' := h c (by simp)
    simp [splitLastCS, ih (fun x hx => h x (by simp [hx])), hc]

/-- Splitting `a ++ ',' :: ' ' :: b` at its unique `", "`. -/
lemma splitLastCS_append (a b : List Char) (ha : ∀ c ∈ a, c ≠ ',')
    (hb : ∀ c ∈ b, c ≠ ',') (hb1 : b ≠ []) :
    splitLastCS (a ++ ',' :: ' ' :: b) = some (a, b) := by
  induction a with
  | nil =>
    have hsb : splitLastCS b = none := splitLastCS_of_no_comma _ hb
    have hbe : b.isEmpty = false := by simpa using hb1
    simp [splitLastCS, hsb, hbe]
  | cons x xs ih =>
    have hx : x ≠ ',' := ha x (by simp)
    have := ih (fun c hc => ha c (by simp [hc]))
    simp [splitLastCS, this]

/-- `tryMatch` on the well-formed tail `a ++ ", " ++ b ++ ")"` (with `a`, `b`
free of newline, comma and — for `b` — `')'`) succeeds and returns the whole
parenthesized group. -/
lemma tryMatch_group (a b : List Char) (ha1 : a ≠ []) (hb1 : b ≠ [])
    (haN : ∀ c ∈ a, c ≠ '\n') (hbN : ∀ c ∈ b, c ≠ '\n')
    (haC : ∀ c ∈ a, c ≠ ',') (hbC : ∀ c ∈ b, c ≠ ',') :
    tryMatch (a ++ ',' :: ' ' :: (b ++ [')'])) =
      some ('(' :: (a ++ ',' :: ' ' :: (b ++ [')']))) := by
  have hseg : (a ++ ',' :: ' ' :: (b ++ [')'])).takeWhile (fun c => c != '\n') =
      a ++ ',' :: ' ' :: (b ++ [')']) := by
    refine takeWhile_eq_self _ _ (fun c hc => ?_)
    simp only [List.mem_append, List.mem_cons] at hc
    rcases hc with hc | rfl | rfl | hc | rfl | hc
    · simp [haN c hc]
    · decide
    · decide
    · simp [hbN c hc]
    · decide
    · simp at hc
  have hshape : a ++ ',' :: ' ' :: (b ++ [')']) = (a ++ ',' :: ' ' :: b) ++ ')' :: [] := by
    simp
  have hclose : splitLastClose (a ++ ',' :: ' ' :: (b ++ [')'])) =
      some (a ++ ',' :: ' ' :: b, []) := by
    rw [hshape]
    exact splitLastClose_append _ _ (by simp)
  have hcs : splitLastCS (a ++ ',' :: ' ' :: b) = some (a, b) :=
    splitLastCS_append a b haC hbC hb1
  have hae : a.isEmpty = false := by simpa using ha1
  simp only [tryMatch, hseg, hclose, hcs, hae]
  rfl

/-- Scanning skips characters that are not `'('`. -/
lemma reFindParen_append (pre l : List Char) (h : ∀ c ∈ pre, c ≠ '(') :
    reFindParen (pre ++ l) = reFindParen l := by
  induction pre with
  | nil => rfl
  | cons c rest ih =>
    have hc : c ≠ '(' := h c (by simp)
    simp only [List.cons_append, reFindParen, hc, if_false]
    exact ih (fun x hx => h x (by simp [hx]))

/-- Scanning a list without `'('` finds nothing. -/
lemma reFindParen_of_no_paren (l : List Char) (h : ∀ c ∈ l, c ≠ '(') :
    reFindParen l = none := by
  have := reFindParen_append l [] h
  simpa using this

/-- C4 (amended).  When the coordinate pair `(a, b)` is the first
parenthesized group of the location string — no `'('` occurs before it — and
the two coordinate fields contain no comma, newline, or (for `a`) `'('`,
(for `b`) `')'`, then `find_lat` returns exactly `a` (the text before the
comma with the `'('` stripped) and `find_lon` returns exactly `b` stripped
of surrounding whitespace.  (The original claim also asserted this when the
pair is *not* the first parenthesized group; the counterexample
`C4_counterexample` shows that the greedy match then starts at the earlier
group and latitude extraction does not return the latitude.) -/
theorem C4_coordinate_extraction (s : String) (pre a b : List Char)
    (hs : s.data = pre ++ '(' :: (a ++ ',' :: ' ' :: (b ++ [')'])))
    (hpre : ∀ c ∈ pre, c ≠ '(')
    (ha1 : a ≠ []) (hb1 : b ≠ [])
    (haN : ∀ c ∈ a, c ≠ '\n') (hbN : ∀ c ∈ b, c ≠ '\n')
    (haC : ∀ c ∈ a, c ≠ ',') (hbC : ∀ c ∈ b, c ≠ ',')
    (haP : ∀ c ∈ a, c ≠ '(') (hbP : ∀ c ∈ b, c ≠ ')') :
    find_lat s = Except.ok (String.mk a) ∧
      find_lon s = Except.ok (String.mk (pyStrip b)) := by
  have hm : reFindParen s.data = some ('(' :: (a ++ ',' :: ' ' :: (b ++ [')']))) := by
    rw [hs, reFindParen_append pre _ hpre]
    simp only [reFindParen, if_true]
    rw [tryMatch_group a b ha1 hb1 haN hbN haC hbC]
  constructor
  · have htw : ('(' :: (a ++ ',' :: ' ' :: (b ++ [')']))).takeWhile (fun c => c != ',') =
        '(' :: a := by
      rw [List.takeWhile_cons_of_pos (by decide),
        takeWhile_append_all _ a _ (fun c hc => by simp [haC c hc]),
        List.takeWhile_cons_of_neg (by decide)]
      simp
    have hf : ('(' :: a).filter (fun c => c != '(') = a := by
      rw [List.filter_cons_of_neg (by decide)]
      exact filter_eq_self_of_all _ a (fun c hc => by simp [haP c hc])
    simp only [find_lat, hm, htw, hf]
  · have hdw : (('(' :: (a ++ ',' :: ' ' :: (b ++ [')']))).dropWhile (fun c => c != ',')) =
        ',' :: ' ' :: (b ++ [')']) := by
      rw [List.dropWhile_cons_of_pos (by decide),
        dropWhile_append_all _ a _ (fun c hc => by simp [haC c hc]),
        List.dropWhile_cons_of_neg (by decide)]
    have htw2 : ((' ' :: (b ++ [')'])).takeWhile (fun c => c != ',')) = ' ' :: (b ++ [')']) := by
      refine takeWhile_eq_self _ _ (fun c hc => ?_)
      rcases List.mem_cons.mp hc with rfl | hc
      · decide
      · rcases List.mem_append.mp hc with hc | hc
        · simp [hbC c hc]
        · rcases List.mem_singleton.mp hc with rfl
          decide
    have hsp : splitPart1 ('(' :: (a ++ ',' :: ' ' :: (b ++ [')']))) = ' ' :: (b ++ [')']) := by
      simp only [splitPart1, hdw, List.drop_succ_cons, List.drop_zero, htw2]
    have hf2 : ((' ' :: (b ++ [')'])).filter (fun c => c != ')')) = ' ' :: b := by
      rw [List.filter_cons_of_pos (by decide), List.filter_append,
        filter_eq_self_of_all _ b (fun c hc => by simp [hbP c hc])]
      simp
    have hstrip : pyStrip (' ' :: b) = pyStrip b := by
      simp [pyStrip, List.dropWhile_cons, isPySpace]
    simp only [find_lon, hm, hsp, hf2, hstrip]

/-- C4 counterexample: with an earlier parenthesized group on the same line,
the greedy match starts at the first `'('`; latitude extraction returns
`"OLD) 40.650"` — not `"40.650"` — and its numeric coercion is `NaN`, while
the original claim predicts the numeric latitude `40.650`. -/
theorem C4_counterexample :
    find_lat "123 MAIN ST (OLD) (40.650, -73.949)" ≠ Except.ok "40.650" ∧
    find_lat "123 MAIN ST (OLD) (40.650, -73.949)" = Except.ok "OLD) 40.650" ∧
    find_lat_num "123 MAIN ST (OLD) (40.650, -73.949)" = none := by
  refine ⟨by decide, by decide, by decide⟩

/-- C4 witness: the spec example `"123 MAIN ST (40.650, -73.949)"`, obtained
from `C4_coordinate_extraction` with `pre = "123 MAIN ST "`, `a = "40.650"`,
`b = "-73.949"`. -/
theorem C4_coordinate_extraction_witness :
    find_lat "123 MAIN ST (40.650, -73.949)" = Except.ok "40.650" ∧
    find_lon "123 MAIN ST (40.650, -73.949)" = Except.ok "-73.949" := by
  have h := C4_coordinate_extraction "123 MAIN ST (40.650, -73.949)"
    "123 MAIN ST ".data "40.650".data "-73.949".data
    (by decide) (by decide) (by decide) (by decide) (by decide) (by decide)
    (by decide) (by decide) (by decide) (by decide)
  exact ⟨h.1.trans (by decide), h.2.trans (by decide)⟩

/-- C5 (amended).  The numeric coercion `pd.to_numeric(…, errors="coerce")`
is total and maps unparseable values (such as the placeholder `"s"` or the
empty string) to the missing marker; but the latitude/longitude extraction
functions are not exception-free: on any location string without a
parenthesized group (e.g. without any `'('` at all) `coords[0]` raises
`IndexError`. -/
theorem C5_coercion_no_raise :
    (∀ loc : String, (∀ c ∈ loc.data, c ≠ '(') →
      find_lat loc = Except.error () ∧ find_lon loc = Except.error ()) ∧
    to_numeric "s" = none ∧ to_numeric "n/a" = none ∧ to_numeric "" = none := by
  refine ⟨fun loc h => ?_, by decide, by decide, by decide⟩
  have hm : reFindParen loc.data = none := reFindParen_of_no_paren loc.data h
  exact ⟨by simp [find_lat, hm], by simp [find_lon, hm]⟩

/-- C5 counterexample: a malformed location value on which `find_lat` (and
`find_lon`) raises `IndexError` instead of returning a missing marker. -/
theorem C5_counterexample :
    find_lat "501 MAIN ST" = Except.error () ∧
    find_lon "501 MAIN ST" = Except.error () := by
  refine ⟨by decide, by decide⟩

/-- C5 witness: `C5_coercion_no_raise` applied to a concrete coordinate-free
location string. -/
theorem C5_coercion_no_raise_witness :
    find_lat "BROADWAY AND W 156" = Except.error () ∧
    find_lon "BROADWAY AND W 156" = Except.error () :=
  C5_coercion_no_raise.1 "BROADWAY AND W 156" (by decide)

/-! ## Dataframe lemmas (claims C2, C8, C9) -/

/-- Equality testing against a string cell. -/
lemma cellEqB_cStr_iff (x : Cell) (v : String) :
    cellEqB x (Cell.cStr v) = true ↔ x = Cell.cStr v := by
  cases x <;> simp [cellEqB]

/-- `colIndex` returns an index that carries the requested name. -/
lemma colIndex_get : ∀ (cols : List String) (c : String) (i : Nat),
    colIndex cols c = some i → cols.get? i = some c := by
  intro cols
  induction cols with
  | nil => intro c i h; simp [colIndex] at h
  | cons x xs ih =>
    intro c i h
    by_cases hx : x = c
    · simp only [colIndex, if_pos hx, Option.some.injEq] at h
      subst h
      simpa using hx
    · simp only [colIndex, if_neg hx, Option.map_eq_some'] at h
      obtain ⟨j, hj, rfl⟩ := h
      simpa using ih c j hj

/-- `colIndex` fails exactly on absent column names. -/
lemma colIndex_eq_none (cols : List String) (c : String) (h : c ∉ cols) :
    colIndex cols c = none := by
  induction cols with
  | nil => rfl
  | cons x xs ih =>
    have hx : ¬ (x = c) := fun hh => h (hh ▸ List.mem_cons_self x xs)
    simp [colIndex, hx, ih (fun hc => h (List.mem_cons_of_mem _ hc))]

/-- Unfolding a successful `filterEqCell`. -/
lemma filterEq_ok (c : String) (v : Cell) (df d : DF)
    (h : filterEqCell c v df = Except.ok d) :
    ∃ i, colIndex df.cols c = some i ∧ d.cols = df.cols ∧
      d.rows = df.rows.filter (fun r => cellEqB (cellAt i r) v) := by
  cases hci : colIndex df.cols c with
  | none => simp [filterEqCell, hci] at h
  | some i =>
    simp only [filterEqCell, hci] at h
    injection h with h
    exact ⟨i, rfl, by rw [← h], by rw [← h]⟩

/-- The filtered columns kept by `groupbyMean` for a key column. -/
def keepCols (key : String) (df : DF) : List Nat :=
  (List.range df.cols.length).filter
    (fun j => !(colNameAt df j == key) && colIsNumeric df j)

/-- The rows with a non-`NaN` key cell. -/
def validRows (i : Nat) (df : DF) : List (List Cell) :=
  df.rows.filter (fun r => !(cellAt i r == Cell.cNaN))

/-- Unfolding a successful `groupbyMean`. -/
lemma groupbyMean_ok (key : String) (df d : DF)
    (h : groupbyMean key df = Except.ok d) :
    ∃ i, colIndex df.cols key = some i ∧
      d.cols = key :: (keepCols key df).map (colNameAt df) ∧
      d.rows = ((validRows i df).map (fun r => cellAt i r)).dedup.map (fun k =>
        k :: (keepCols key df).map (fun j =>
          meanCells (((validRows i df).filter (fun r => cellAt i r == k)).map (cellAt j)))) := by
  cases hci : colIndex df.cols key with
  | none => simp [groupbyMean, hci] at h
  | some i =>
    simp only [groupbyMean, hci] at h
    injection h with h
    exact ⟨i, rfl, by rw [← h]; simp [keepCols, validRows],
      by rw [← h]; simp [keepCols, validRows]⟩

/-- After `groupbyMean`, the first column (the group key, restored by
`reset_index`) has pairwise distinct values: at most one row per key. -/
lemma groupbyMean_keys_nodup (key : String) (df d : DF)
    (h : groupbyMean key df = Except.ok d) :
    (d.rows.map (fun r => cellAt 0 r)).Nodup := by
  obtain ⟨i, -, -, hrows⟩ := groupbyMean_ok key df d h
  rw [hrows, List.map_map]
  have : ((fun r => cellAt 0 r) ∘ (fun k =>
      k :: (keepCols key df).map (fun j =>
        meanCells (((validRows i df).filter (fun r => cellAt i r == k)).map (cellAt j))))) =
      fun k => k := by
    funext k
    rfl
  rw [this, List.map_id']
  exact List.nodup_dedup _

/-- A successful `groupbyMean` with a non-empty result draws its keys from
the input rows. -/
lemma groupbyMean_rows_source (key : String) (df d : DF)
    (h : groupbyMean key df = Except.ok d) (hne : d.rows ≠ []) :
    ∃ r, r ∈ df.rows := by
  obtain ⟨i, -, -, hrows⟩ := groupbyMean_ok key df d h
  rw [hrows] at hne
  have hks : ((validRows i df).map (fun r => cellAt i r)).dedup ≠ [] := by
    intro hk; exact hne (by rw [hk]; rfl)
  have hvm : (validRows i df).map (fun r => cellAt i r) ≠ [] := by
    intro hv; exact hks (by rw [hv]; rfl)
  have hv : validRows i df ≠ [] := by
    intro hv; exact hvm (by rw [hv]; rfl)
  obtain ⟨r, hr⟩ := List.exists_mem_of_ne_nil _ hv
  exact ⟨r, List.mem_of_mem_filter hr⟩

/-! ## Claim C8: condensation is not idempotent -/

/-- C8 (amended).  One application of the class-size condensation yields at
most one row per DBN; but the full filter-and-group operation cannot be
applied twice to a non-empty result: `groupby(…).agg(np.mean)` drops the
non-numeric `"GRADE "` (and `"PROGRAM TYPE"`) columns, so the second
application raises `KeyError` instead of reproducing the result. -/
theorem C8_condense_not_idem (df df' : DF) (hnd : df.cols.Nodup)
    (h : condense_class_size df = Except.ok df') :
    (df'.rows.map (fun r => cellAt 0 r)).Nodup ∧
    (df'.rows ≠ [] → condense_class_size df' = Except.error ()) := by
  cases h1 : filterEqCell "GRADE " (Cell.cStr "09-12") df with
  | error e1 => simp [condense_class_size, h1, Except.bind] at h
  | ok d1 =>
  cases h2 : filterEqCell "PROGRAM TYPE" (Cell.cStr "GEN ED") d1 with
  | error e2 => simp [condense_class_size, h1, h2, Except.bind] at h
  | ok d2 =>
  have hg : groupbyMean "DBN" d2 = Except.ok df' := by
    simpa [condense_class_size, h1, h2, Except.bind] using h
  refine ⟨groupbyMean_keys_nodup _ _ _ hg, fun hne => ?_⟩
  obtain ⟨iG, hiG, hc1, hr1⟩ := filterEq_ok _ _ _ _ h1
  obtain ⟨iP, hiP, hc2, hr2⟩ := filterEq_ok _ _ _ _ h2
  obtain ⟨i, hi, hcols', hrows'⟩ := groupbyMean_ok _ _ _ hg
  have hcols2 : d2.cols = df.cols := hc2.trans hc1
  have hnotin : "GRADE " ∉ df'.cols := by
    rw [hcols']
    intro hmem
    rcases List.mem_cons.mp hmem with heq | hmem
    · exact absurd heq (by decide)
    · rcases List.mem_map.mp hmem with ⟨j, hjkeep, hname⟩
      rcases List.mem_filter.mp hjkeep with ⟨hjrange, hcond⟩
      have hj : j < d2.cols.length := List.mem_range.mp hjrange
      have hnum : colIsNumeric d2 j = true := by
        cases hy : colIsNumeric d2 j
        · rw [hy] at hcond; simp at hcond
        · rfl
      have hget : d2.cols.get? j = some "GRADE " := by
        unfold colNameAt at hname
        cases hgj : d2.cols.get? j with
        | none =>
          rw [List.get?_eq_none] at hgj
          omega
        | some cname =>
          rw [hgj] at hname
          simp only [Option.getD_some] at hname
          rw [hname]
      have hgetG : d2.cols.get? iG = some "GRADE " := by
        rw [hcols2]
        exact colIndex_get _ _ _ hiG
      have hnd2 : d2.cols.Nodup := hcols2 ▸ hnd
      have hij : j = iG := List.get?_inj hj hnd2 (hget.trans hgetG.symm)
      obtain ⟨r, hr⟩ := groupbyMean_rows_source _ _ _ hg hne
      rw [hr2] at hr
      have hr1' := List.mem_of_mem_filter hr
      rw [hr1] at hr1'
      have hpredG := List.of_mem_filter hr1'
      have hcellG : cellAt iG r = Cell.cStr "09-12" := (cellEqB_cStr_iff _ _).mp hpredG
      have hrd2 : r ∈ d2.rows := by rw [hr2]; exact hr
      have hall := List.all_eq_true.mp hnum r hrd2
      rw [hij, hcellG] at hall
      simp at hall
  have hcolnone : colIndex df'.cols "GRADE " = none := colIndex_eq_none _ _ hnotin
  simp [condense_class_size, filterEqCell, hcolnone, Except.bind]

/-- C8 counterexample: on a one-row class-size table the condensation
succeeds, but applying it a second time raises `KeyError` for the dropped
`"GRADE "` column, so twice is not the same as once. -/
theorem C8_counterexample :
    condense_class_size csTestDF ≠ Except.error () ∧
    (condense_class_size csTestDF).bind condense_class_size = Except.error () ∧
    (condense_class_size csTestDF).bind condense_class_size ≠ condense_class_size csTestDF := by
  refine ⟨by decide, by decide, by decide⟩

/-- C8 witness: `C8_condense_not_idem` applied to the concrete table
`csTestDF`, whose condensed form `csOnceDF` is non-empty. -/
theorem C8_condense_not_idem_witness :
    (csOnceDF.rows.map (fun r => cellAt 0 r)).Nodup ∧
    condense_class_size csOnceDF = Except.error () := by
  have h := C8_condense_not_idem csTestDF csOnceDF (by decide) (by decide)
  exact ⟨h.1, h.2 (by decide)⟩

/-! ## Claim C9: one row per DBN after condensation -/

/-- C9 (amended).  The grouped class-size table has at most one row per DBN
(the group keys are pairwise distinct); the demographics and graduation
condensations are row filters, so they preserve whatever row multiplicity
the source data has — one row per DBN for them (and for the other merged
tables) is a property of the input data, not established by the code. -/
theorem C9_one_row_per_dbn :
    (∀ df d : DF, groupbyMean "DBN" df = Except.ok d →
      (d.rows.map (fun r => cellAt 0 r)).Nodup) ∧
    (∀ (c : String) (v : Cell) (df d : DF), filterEqCell c v df = Except.ok d →
      d.rows.Sublist df.rows) := by
  refine ⟨fun df d h => groupbyMean_keys_nodup _ _ _ h, fun c v df d h => ?_⟩
  obtain ⟨i, -, -, hrows⟩ := filterEq_ok _ _ _ _ h
  rw [hrows]
  exact List.filter_sublist _

/-- C9 counterexample: a demographics table with two identical-DBN rows for
the kept school year; the condensed table still has two rows for that DBN,
so "at most one row per DBN" does not hold for the filter-only
condensations. -/
theorem C9_counterexample :
    condense_demographics demoTestDF = Except.ok demoTestDF ∧
    ¬ (demoTestDF.rows.map (fun r => cellAt 0 r)).Nodup := by
  refine ⟨by decide, by decide⟩

/-- C9 witness: `C9_one_row_per_dbn` applied to concrete tables — grouping
`demoTestDF` by DBN yields distinct keys, and the year filter on
`demoMixedDF` yields a sublist of its rows. -/
theorem C9_one_row_per_dbn_witness :
    (demoGroupedDF.rows.map (fun r => cellAt 0 r)).Nodup ∧
    demoMixedOutDF.rows.Sublist demoMixedDF.rows := by
  have h1 := C9_one_row_per_dbn.1 demoTestDF demoGroupedDF (by decide)
  have h2 := C9_one_row_per_dbn.2 "schoolyear" (Cell.cNum 20112012)
    demoMixedDF demoMixedOutDF (by decide)
  exact ⟨h1, h2⟩

/-! ## Claim C2: imputation -/

/-- C2 (amended).  After the two `fillna` steps, a cell of the merged table
is: unchanged if it was not missing (in particular, non-missing entries of a
non-numeric column are NOT replaced by zero); the column mean over the whole
merged table if it was missing in a numeric column with at least one value;
and `0` if it was missing in a column with no numeric value (fully missing
column) or in a non-numeric column. -/
theorem C2_imputation (df : DF) (i j : Nat)
    (hi : i < df.rows.length) (hj : j < df.cols.length) :
    cellOf (imputeDF df) i j =
      (match cellOf df i j with
       | Cell.cNaN =>
         if colIsNumeric df j then
           (match meanOfCol df j with
            | some m => Cell.cNum m
            | none => Cell.cNum 0)
         else Cell.cNum 0
       | c => c) := by
  obtain ⟨r, hr⟩ : ∃ r, df.rows.get? i = some r := by
    rw [List.get?_eq_get hi]; exact ⟨_, rfl⟩
  simp only [cellOf, imputeDF, fillnaZero, fillnaMean, List.get?_map, hr,
    Option.map_some', Option.getD_some, cellAt, List.get?_range hj]
  cases hc : cellAt j r with
  | cNaN =>
    simp only [cellAt, List.get?_eq_getElem?] at hc
    by_cases hnum : colIsNumeric df j
    · cases hm : meanOfCol df j with
      | none => simp [hc, hnum, hm, cellAt]
      | some m => simp [hc, hnum, hm, cellAt]
    · simp [hc, hnum, cellAt]
  | cNum q =>
    simp only [cellAt, List.get?_eq_getElem?] at hc
    by_cases hnum : colIsNumeric df j
    · simp [hc, hnum, cellAt]
    · simp [hc, hnum, cellAt]
  | cStr st =>
    simp only [cellAt, List.get?_eq_getElem?] at hc
    by_cases hnum : colIsNumeric df j
    · simp [hc, hnum, cellAt]
    · simp [hc, hnum, cellAt]

/-- C2 counterexample: in an entirely non-numeric column with a present
value, the present cell stays a string after both `fillna` steps — the
column does not "become 0 in every row"; only its missing cell becomes 0. -/
theorem C2_counterexample :
    cellOf (imputeDF objTestDF) 0 0 = Cell.cStr "abc" ∧
    cellOf (imputeDF objTestDF) 0 0 ≠ Cell.cNum 0 ∧
    cellOf (imputeDF objTestDF) 1 0 = Cell.cNum 0 := by
  refine ⟨by decide, by decide, by decide⟩

/-- C2 witness: `C2_imputation` on the spec's example column
`[10, 20, missing]` — the missing cell becomes the column mean `15`. -/
theorem C2_imputation_witness : cellOf (imputeDF impTestDF) 2 0 = Cell.cNum 15 := by
  have h := C2_imputation impTestDF 2 0 (by decide) (by decide)
  exact h.trans (by decide)

end NYC


